import Mathlib

/-!
# Verification of the gcp_auth credential resolver and token cache

This file gives a shallow embedding of the `gcp_auth` crate's credential
resolution (`init` in `src/lib.rs`) and of the token-cache and JWT-claims
behaviour described in the specification, and proves the specification's
claims about them.

The resolver `init` is embedded directly from `src/lib.rs`: the outside
world (results of loading credential files, the environment variable, the
two probes) is an explicit record `InitEnv`, and `init` additionally
returns the list of consultations/probes it performed, in order, so that
"strategy X was never consulted" is a statement about the returned log.
-/

namespace GcpAuth

/-- The credential strategy bound into the `AuthenticationManager`.
`customServiceAccount` corresponds to `CustomServiceAccount` (used both for
the explicit path and for the environment-variable path),
`defaultServiceAccount` to `DefaultServiceAccount` (metadata service), and
`defaultAuthorizedUser` to `DefaultAuthorizedUser` (local gcloud user). -/
inductive Strategy where
  | customServiceAccount
  | defaultServiceAccount
  | defaultAuthorizedUser
deriving DecidableEq, Repr

/-- The public facade returned by `init`; we record which strategy it holds
in `service_account`, mirroring the field of the Rust struct. -/
structure AuthenticationManager where
  service_account : Strategy
deriving DecidableEq, Repr

/-- The error type of `init`, polymorphic in the payload `ε` of the
underlying loader/probe errors (the concrete `error::Error` enum is in a
module not present in the sources). `custom e` is an error propagated
unchanged from `CustomServiceAccount` loading; `noAuthMethod m u` is
`Error::NoAuthMethod(Box::new(m), Box::new(u))` with `m` the
metadata-probe failure and `u` the local-user-probe failure. -/
inductive Error (ε : Type) where
  | custom (e : ε)
  | noAuthMethod (metaErr : ε) (userErr : ε)
deriving DecidableEq, Repr

/-- One consultation of the outside world made by `init`, in the order the
Rust code performs them. -/
inductive Probe where
  | loadExplicit
  | readEnvVar
  | loadFromEnv
  | probeMetadata
  | probeLocalUser
deriving DecidableEq, Repr

/-- The outside world as `init` sees it: the outcome of each fallible call
it may make. `new_from_cred p` is `CustomServiceAccount::new_from_cred(p)`,
`env_var` is the value of `GOOGLE_APPLICATION_CREDENTIALS` (`none` when
`std::env::var` returns `Err`), `new_from_env` is
`CustomServiceAccount::new()`, and the last two fields are the outcomes of
`DefaultServiceAccount::new` and `DefaultAuthorizedUser::new`. -/
structure InitEnv (ε : Type) where
  new_from_cred : String → Except ε Unit
  env_var : Option String
  new_from_env : Except ε Unit
  default_service_account : Except ε Unit
  default_authorized_user : Except ε Unit

/-- Embedding of `init` from `src/lib.rs` lines 80–120.  Besides the
result, it returns the list of consultations performed.  The control flow
mirrors the source: an explicit credential argument returns from the
`CustomServiceAccount::new_from_cred` branch at once; otherwise the
environment variable is read and, when set, `CustomServiceAccount::new()`
decides the outcome; otherwise `DefaultServiceAccount::new` is probed,
then on its failure `DefaultAuthorizedUser::new`, and when both fail the
two errors are aggregated into `NoAuthMethod`. -/
def init {ε : Type} (env : InitEnv ε) (cred : Option String) :
    Except (Error ε) AuthenticationManager × List Probe :=
  match cred with
  | some credentials =>
    match env.new_from_cred credentials with
    | Except.ok _ =>
      (Except.ok { service_account := Strategy.customServiceAccount }, [Probe.loadExplicit])
    | Except.error e => (Except.error (Error.custom e), [Probe.loadExplicit])
  | none =>
    match env.env_var with
    | some _ =>
      match env.new_from_env with
      | Except.ok _ =>
        (Except.ok { service_account := Strategy.customServiceAccount },
          [Probe.readEnvVar, Probe.loadFromEnv])
      | Except.error e =>
        (Except.error (Error.custom e), [Probe.readEnvVar, Probe.loadFromEnv])
    | none =>
      match env.default_service_account with
      | Except.ok _ =>
        (Except.ok { service_account := Strategy.defaultServiceAccount },
          [Probe.readEnvVar, Probe.probeMetadata])
      | Except.error me =>
        match env.default_authorized_user with
        | Except.ok _ =>
          (Except.ok { service_account := Strategy.defaultAuthorizedUser },
            [Probe.readEnvVar, Probe.probeMetadata, Probe.probeLocalUser])
        | Except.error ue =>
          (Except.error (Error.noAuthMethod me ue),
            [Probe.readEnvVar, Probe.probeMetadata, Probe.probeLocalUser])

/-- A sample environment in which every strategy fails, with numbered
errors so the two causes of `NoAuthMethod` are distinguishable. -/
def envAllFail : InitEnv Nat :=
  { new_from_cred := fun _ => Except.error 7
    env_var := none
    new_from_env := Except.error 8
    default_service_account := Except.error 0
    default_authorized_user := Except.error 1 }

/-- A sample environment in which every strategy succeeds. -/
def envAllOk : InitEnv Nat :=
  { new_from_cred := fun _ => Except.ok ()
    env_var := some "/tmp/key.json"
    new_from_env := Except.ok ()
    default_service_account := Except.ok ()
    default_authorized_user := Except.ok () }

/-- A sample environment with no explicit/env path where the metadata
probe fails but the local authorized-user probe succeeds. -/
def envMetaFails : InitEnv Nat :=
  { new_from_cred := fun _ => Except.ok ()
    env_var := none
    new_from_env := Except.ok ()
    default_service_account := Except.error 3
    default_authorized_user := Except.ok () }

/-- A sample environment with no env variable set in which both probes
would succeed. -/
def envAllOkNoEnv : InitEnv Nat :=
  { new_from_cred := fun _ => Except.ok ()
    env_var := none
    new_from_env := Except.ok ()
    default_service_account := Except.ok ()
    default_authorized_user := Except.ok () }

/-- A bearer token: opaque value, scope set, absolute expiry instant (in
seconds). -/
structure Token where
  value : String
  scopes : List String
  expires_at : Nat
deriving DecidableEq, Repr

/-- Modelled from the spec: ScopeSet normalization (§3; the token-cache
module is not under src/) — the cache key is the order-independent, sorted
form of the requested scopes, so the same scopes in different order hit
the same entry. -/
def normalizeKey (scopes : List String) : List String :=
  scopes.insertionSort (fun a b => a ≤ b)

/-- The token cache: a map from normalized scope key to the cached token. -/
def Cache : Type := List String → Option Token

/-- Replace the entry for key `k` with token `t`, leaving all other keys
untouched. -/
def Cache.update (c : Cache) (k : List String) (t : Token) : Cache :=
  fun q => if q = k then some t else c q

/-- The entry for `key` is absent or no longer usable at `now` (the
refresh precondition of §4.5: usable means `now < expires_at − margin`). -/
def staleEntry (c : Cache) (key : List String) (margin now : Nat) : Bool :=
  match c key with
  | some t => !(decide (now < t.expires_at - margin))
  | none => true

/-- Shared state of the token cache: the cache map plus the per-key
in-flight ("refreshing") marker, the only mutable shared state (§5). -/
structure SFState where
  cache : Cache
  inflight : List String → Bool

/-- What one caller of `get_token` observes on arrival: a fast-path cache
hit, becoming the leader that invokes the bound strategy's issue, or
joining the in-flight refresh as a waiter. -/
inductive ArriveOutcome where
  | hit (t : Token)
  | leader
  | waiter
deriving DecidableEq, Repr

/-- Set the in-flight marker for `key`, leaving the cache and all other
markers untouched. -/
def markBusy (s : SFState) (key : List String) : SFState :=
  { cache := s.cache, inflight := fun q => if q = key then true else s.inflight q }

/-- Modelled from the spec: the stale-entry path of `get_token` (§4.5/§5;
the token-cache module is not under src/) — the marker check-and-set is
atomic: a caller finding the in-flight marker set joins the round as a
waiter; otherwise it sets the marker and becomes the leader, the one
caller that invokes the strategy's issue. -/
def arriveStale (s : SFState) (key : List String) : SFState × ArriveOutcome :=
  if s.inflight key then (s, ArriveOutcome.waiter)
  else (markBusy s key, ArriveOutcome.leader)

/-- Modelled from the spec: one caller invoking `get_token` (§4.5; the
token-cache module is not under src/): normalize the scopes, return the
cached token without network access while `now < expires_at − margin`,
otherwise coordinate on the per-key in-flight marker. -/
def arrive (s : SFState) (margin now : Nat) (scopes : List String) :
    SFState × ArriveOutcome :=
  match s.cache (normalizeKey scopes) with
  | some t =>
    if now < t.expires_at - margin then (s, ArriveOutcome.hit t)
    else arriveStale s (normalizeKey scopes)
  | none => arriveStale s (normalizeKey scopes)

/-- `n` concurrent callers of `get_token` reaching the atomic marker one
after the other (the interleaving order among concurrent callers is
arbitrary; the model takes them in sequence). Returns the final state and
each caller's observation. -/
def arriveMany (s : SFState) (margin now : Nat) (scopes : List String) :
    Nat → SFState × List ArriveOutcome
  | 0 => (s, [])
  | Nat.succ n =>
    match arrive s margin now scopes with
    | (s1, o) =>
      match arriveMany s1 margin now scopes n with
      | (s2, os) => (s2, o :: os)

/-- The number of callers of a round that invoked the strategy's issue
(each leader makes exactly one outbound request). -/
def leaderCount (os : List ArriveOutcome) : Nat :=
  os.countP (fun o => decide (o = ArriveOutcome.leader))

/-- Modelled from the spec: completion of the single in-flight refresh for
`scopes` with result `r` (§4.5; the token-cache module is not under src/):
the marker is cleared on both the success and the failure path; on success
the entry is replaced atomically, on failure the previous entry is left in
place rather than evicted. -/
def complete {ε : Type} (s : SFState) (scopes : List String) (r : Except ε Token) :
    SFState :=
  match r with
  | Except.ok t =>
    { cache := Cache.update s.cache (normalizeKey scopes) t
      inflight := fun q => if q = normalizeKey scopes then false else s.inflight q }
  | Except.error _ =>
    { cache := s.cache
      inflight := fun q => if q = normalizeKey scopes then false else s.inflight q }

/-- Modelled from the spec: what each caller of a round receives — a
fast-path caller got the cached token, and every leader and waiter
receives the round's single refresh result once it completes (§4.5). -/
def roundResult {ε : Type} (o : ArriveOutcome) (r : Except ε Token) : Except ε Token :=
  match o with
  | ArriveOutcome.hit t => Except.ok t
  | ArriveOutcome.leader => r
  | ArriveOutcome.waiter => r

/-- A parsed service-account key file (§3/§6 file format). -/
structure ServiceAccountKey where
  client_email : String
  private_key : String
  token_uri : String
  project_id : String
deriving DecidableEq, Repr

/-- The JWT claim set of the keyed service-account strategy. -/
structure Claims where
  iss : String
  scope : String
  aud : String
  exp : Nat
  iat : Nat
deriving DecidableEq, Repr

/-- Modelled from the spec: the claim-set builder of §4.2 (the `jwt`
module is not under src/): `iss` is the key's `client_email`, `scope` the
requested scopes joined by a single space in the caller-specified order,
`aud` the key's token endpoint URI, `iat` the current time and `exp` one
hour later. -/
def buildClaims (key : ServiceAccountKey) (scopes : List String) (now : Nat) : Claims :=
  { iss := key.client_email
    scope := String.intercalate " " scopes
    aud := key.token_uri
    exp := now + 3600
    iat := now }

/-- A sample token for concrete evaluation. -/
def sampleToken : Token :=
  { value := "ya29.t0", scopes := ["s1"], expires_at := 1000 }

/-- A cache state whose only entry is `sampleToken` under key `["s1"]`,
with no refresh in flight. -/
def freshState : SFState :=
  { cache := fun q => if q = ["s1"] then some sampleToken else none
    inflight := fun _ => false }

/-- The empty cache state: no entries, nothing in flight. -/
def emptyState : SFState :=
  { cache := fun _ => none, inflight := fun _ => false }

/-- C1: when `init` is called without a credential path, the environment
variable is unset, and both the metadata probe and the local-user probe
fail, `init` returns `NoAuthMethod` carrying both failures as distinct
nested causes, in probe order. -/
theorem init_aggregates_both_probe_failures {ε : Type} (env : InitEnv ε) (me ue : ε)
    (he : env.env_var = none)
    (hm : env.default_service_account = Except.error me)
    (hu : env.default_authorized_user = Except.error ue) :
    (init env none).1 = Except.error (Error.noAuthMethod me ue) := by
  simp [init, he, hm, hu]

/-- Witness for C1: in the all-failing environment the aggregate error
carries the metadata error 0 and the user error 1, discarding neither. -/
theorem init_aggregates_both_probe_failures_witness :
    (init envAllFail none).1 = Except.error (Error.noAuthMethod 0 1) :=
  init_aggregates_both_probe_failures envAllFail 0 1 rfl rfl rfl

/-- C2: with an explicit credential path, `init` consults only the
explicit loader — the probe log is exactly `[loadExplicit]`, so neither
the environment variable nor the metadata service nor the local user file
is touched — its outcome is independent of everything but
`new_from_cred`, and on success the bound strategy is the custom (keyed)
service account. -/
theorem init_explicit_path_selects_custom {ε : Type} (env env' : InitEnv ε) (c : String)
    (h : env.new_from_cred c = env'.new_from_cred c) :
    (init env (some c)).2 = [Probe.loadExplicit] ∧
    init env (some c) = init env' (some c) ∧
    ∀ mgr, (init env (some c)).1 = Except.ok mgr →
      mgr.service_account = Strategy.customServiceAccount := by
  cases hc : env.new_from_cred c with
  | ok u =>
    have h' : env'.new_from_cred c = Except.ok u := h.symm.trans hc
    refine ⟨by simp [init, hc], by simp [init, hc, h'], ?_⟩
    intro mgr hmgr
    simp [init, hc] at hmgr
    simp [← hmgr]
  | error e =>
    have h' : env'.new_from_cred c = Except.error e := h.symm.trans hc
    refine ⟨by simp [init, hc], by simp [init, hc, h'], ?_⟩
    intro mgr hmgr
    simp [init, hc] at hmgr

/-- Witness for C2: with an explicit path, even in an environment where
every later strategy would succeed versus one where they all fail, the
outcome and log agree and only the explicit loader is consulted. -/
theorem init_explicit_path_selects_custom_witness :
    (init envAllOk (some "/tmp/key.json")).2 = [Probe.loadExplicit] ∧
    init envAllOk (some "/tmp/key.json") = init envMetaFails (some "/tmp/key.json") ∧
    ∀ mgr, (init envAllOk (some "/tmp/key.json")).1 = Except.ok mgr →
      mgr.service_account = Strategy.customServiceAccount :=
  init_explicit_path_selects_custom envAllOk envMetaFails "/tmp/key.json" rfl

/-- C3: with an explicit credential path whose loading fails, `init`
returns that failure immediately, and the probe log shows no subsequent
strategy was consulted. -/
theorem init_explicit_failure_is_fatal {ε : Type} (env : InitEnv ε) (c : String) (e : ε)
    (h : env.new_from_cred c = Except.error e) :
    init env (some c) = (Except.error (Error.custom e), [Probe.loadExplicit]) := by
  simp [init, h]

/-- Witness for C3: in the all-failing environment, the explicit path's
load error 7 is returned as-is and nothing else is probed. -/
theorem init_explicit_failure_is_fatal_witness :
    init envAllFail (some "/bad/path.json") =
      (Except.error (Error.custom 7), [Probe.loadExplicit]) :=
  init_explicit_failure_is_fatal envAllFail "/bad/path.json" 7 rfl

/-- C4: with no explicit path, an unset environment variable is non-fatal
and `init` goes on to probe the metadata service; when the variable is set,
`init` commits to loading the keyed service account from it — the log is
exactly `[readEnvVar, loadFromEnv]` and the outcome is decided by
`CustomServiceAccount::new()` alone. -/
theorem init_env_var_absence_nonfatal {ε : Type} (env : InitEnv ε) :
    (env.env_var = none → Probe.probeMetadata ∈ (init env none).2) ∧
    (∀ v, env.env_var = some v →
      (init env none).2 = [Probe.readEnvVar, Probe.loadFromEnv] ∧
      (init env none).1 = (match env.new_from_env with
        | Except.ok _ => Except.ok { service_account := Strategy.customServiceAccount }
        | Except.error e => Except.error (Error.custom e))) := by
  constructor
  · intro he
    cases hm : env.default_service_account with
    | ok u => simp [init, he, hm]
    | error me =>
      cases hu : env.default_authorized_user <;> simp [init, he, hm, hu]
  · intro v hv
    cases hne : env.new_from_env <;> simp [init, hv, hne]

/-- Witness for C4: with the variable unset the metadata probe appears in
the log; with it set, only the variable read and the env-path load do. -/
theorem init_env_var_absence_nonfatal_witness :
    Probe.probeMetadata ∈ (init envAllFail none).2 ∧
    (init envAllOk none).2 = [Probe.readEnvVar, Probe.loadFromEnv] :=
  ⟨(init_env_var_absence_nonfatal envAllFail).1 rfl,
    ((init_env_var_absence_nonfatal envAllOk).2 "/tmp/key.json" rfl).1⟩

/-- C5: with no explicit or environment path, a failed metadata probe is
swallowed — the log shows the local-user probe ran and the result is
decided by it, with the metadata error surfacing only inside a possible
`NoAuthMethod` — while a successful metadata probe commits to the metadata
strategy and the local-user probe never appears in the log. -/
theorem init_metadata_probe_policy {ε : Type} (env : InitEnv ε)
    (he : env.env_var = none) :
    (∀ me, env.default_service_account = Except.error me →
      Probe.probeLocalUser ∈ (init env none).2 ∧
      (init env none).1 = (match env.default_authorized_user with
        | Except.ok _ => Except.ok { service_account := Strategy.defaultAuthorizedUser }
        | Except.error ue => Except.error (Error.noAuthMethod me ue))) ∧
    (∀ u, env.default_service_account = Except.ok u →
      (init env none).1 = Except.ok { service_account := Strategy.defaultServiceAccount } ∧
      Probe.probeLocalUser ∉ (init env none).2) := by
  constructor
  · intro me hm
    cases hu : env.default_authorized_user <;> simp [init, he, hm, hu]
  · intro u hm
    simp [init, he, hm]

/-- Witness for C5: a failing metadata probe leads to the local-user probe
(which succeeds in `envMetaFails`), and a succeeding one commits without
ever probing the local user. -/
theorem init_metadata_probe_policy_witness :
    (Probe.probeLocalUser ∈ (init envMetaFails none).2 ∧
      (init envMetaFails none).1 =
        Except.ok { service_account := Strategy.defaultAuthorizedUser }) ∧
    ((init envAllOkNoEnv none).1 =
        Except.ok { service_account := Strategy.defaultServiceAccount } ∧
      Probe.probeLocalUser ∉ (init envAllOkNoEnv none).2) :=
  ⟨(init_metadata_probe_policy envMetaFails rfl).1 3 rfl,
    (init_metadata_probe_policy envAllOkNoEnv rfl).2 () rfl⟩

/-- C10: with an explicit credential argument, the `NoAuthMethod` branch is
unreachable — `init` returns either a manager or the propagated keyed
service-account loading error, never `NoAuthMethod`. -/
theorem init_explicit_never_no_auth_method {ε : Type} (env : InitEnv ε) (c : String) :
    (∀ me ue, (init env (some c)).1 ≠ Except.error (Error.noAuthMethod me ue)) ∧
    ((∃ mgr, (init env (some c)).1 = Except.ok mgr) ∨
      ∃ e, (init env (some c)).1 = Except.error (Error.custom e)) := by
  cases hc : env.new_from_cred c with
  | ok u =>
    exact ⟨fun me ue => by simp [init, hc],
      Or.inl ⟨{ service_account := Strategy.customServiceAccount }, by simp [init, hc]⟩⟩
  | error e => exact ⟨fun me ue => by simp [init, hc], Or.inr ⟨e, by simp [init, hc]⟩⟩

/-- With a stale entry and the in-flight marker set, an arriving caller
becomes a waiter and leaves the state unchanged. -/
theorem arrive_waiter (s : SFState) (margin now : Nat) (scopes : List String)
    (hstale : staleEntry s.cache (normalizeKey scopes) margin now = true)
    (hbusy : s.inflight (normalizeKey scopes) = true) :
    arrive s margin now scopes = (s, ArriveOutcome.waiter) := by
  unfold arrive
  cases hc : s.cache (normalizeKey scopes) with
  | none => simp [arriveStale, hbusy]
  | some t =>
    have hlt : ¬ now < t.expires_at - margin := by
      simp [staleEntry, hc] at hstale
      omega
    simp [hlt, arriveStale, hbusy]

/-- With a stale entry and the in-flight marker set, every one of `n`
arriving callers is a waiter. -/
theorem arriveMany_waiters (s : SFState) (margin now : Nat) (scopes : List String)
    (hstale : staleEntry s.cache (normalizeKey scopes) margin now = true)
    (hbusy : s.inflight (normalizeKey scopes) = true) (n : Nat) :
    arriveMany s margin now scopes n = (s, List.replicate n ArriveOutcome.waiter) := by
  induction n with
  | zero => rfl
  | succ m ih =>
    simp [arriveMany, arrive_waiter s margin now scopes hstale hbusy, ih,
      List.replicate_succ]

/-- A round of waiters invokes the strategy zero times. -/
theorem leaderCount_replicate_waiter (n : Nat) :
    leaderCount (List.replicate n ArriveOutcome.waiter) = 0 := by
  unfold leaderCount
  induction n with
  | zero => rfl
  | succ m ih => simp [List.replicate_succ, List.countP_cons, ih]

/-- C6: for any key, when `n + 1` concurrent callers invoke `get_token`
while the entry is absent or expired and no refresh is in flight, exactly
one of them (the first to win the atomic marker) invokes the strategy's
issue, and every caller of the round receives the round's single result —
the same token or the same failure. -/
theorem get_token_single_flight {ε : Type} (s : SFState) (margin now n : Nat)
    (scopes : List String)
    (hstale : staleEntry s.cache (normalizeKey scopes) margin now = true)
    (hfree : s.inflight (normalizeKey scopes) = false) :
    (arriveMany s margin now scopes (n + 1)).2 =
      ArriveOutcome.leader :: List.replicate n ArriveOutcome.waiter ∧
    leaderCount (arriveMany s margin now scopes (n + 1)).2 = 1 ∧
    ∀ (r : Except ε Token), ∀ o ∈ (arriveMany s margin now scopes (n + 1)).2,
      roundResult o r = r := by
  have ha : arrive s margin now scopes =
      (markBusy s (normalizeKey scopes), ArriveOutcome.leader) := by
    unfold arrive
    cases hc : s.cache (normalizeKey scopes) with
    | none => simp [arriveStale, hfree]
    | some t =>
      have hlt : ¬ now < t.expires_at - margin := by
        simp [staleEntry, hc] at hstale
        omega
      simp [hlt, arriveStale, hfree]
  have hw : arriveMany (markBusy s (normalizeKey scopes)) margin now scopes n =
      (markBusy s (normalizeKey scopes), List.replicate n ArriveOutcome.waiter) :=
    arriveMany_waiters (markBusy s (normalizeKey scopes)) margin now scopes hstale
      (by simp [markBusy]) n
  have hall : (arriveMany s margin now scopes (n + 1)).2 =
      ArriveOutcome.leader :: List.replicate n ArriveOutcome.waiter := by
    simp [arriveMany, ha, hw]
  refine ⟨hall, ?_, ?_⟩
  · rw [hall]
    have h0 := leaderCount_replicate_waiter n
    unfold leaderCount at h0 ⊢
    simp [List.countP_cons, h0]
  · intro r o ho
    rw [hall] at ho
    rcases List.mem_cons.mp ho with h | h
    · rw [h]
      rfl
    · rw [List.eq_of_mem_replicate h]
      rfl

/-- Witness for C6: three concurrent callers on the empty cache yield one
leader and two waiters — a single issue invocation — and all three receive
the round's result. -/
theorem get_token_single_flight_witness :
    (arriveMany emptyState 30 0 ["s1"] 3).2 =
      ArriveOutcome.leader :: List.replicate 2 ArriveOutcome.waiter ∧
    leaderCount (arriveMany emptyState 30 0 ["s1"] 3).2 = 1 ∧
    ∀ (r : Except Nat Token), ∀ o ∈ (arriveMany emptyState 30 0 ["s1"] 3).2,
      roundResult o r = r :=
  @get_token_single_flight Nat emptyState 30 0 2 ["s1"] rfl rfl

/-- C7: when the cache holds an entry for the normalized key with
`now < expires_at − margin`, `get_token` returns exactly the cached token,
the state is unchanged, and the caller is not a leader — the strategy's
issue is not invoked on this path. -/
theorem get_token_fast_path_cached (s : SFState) (margin now : Nat)
    (scopes : List String) (t : Token)
    (hc : s.cache (normalizeKey scopes) = some t)
    (hfresh : now < t.expires_at - margin) :
    arrive s margin now scopes = (s, ArriveOutcome.hit t) ∧
    (arrive s margin now scopes).2 ≠ ArriveOutcome.leader := by
  have h : arrive s margin now scopes = (s, ArriveOutcome.hit t) := by
    unfold arrive
    simp [hc, hfresh]
  refine ⟨h, ?_⟩
  rw [h]
  simp

/-- Witness for C7: with `sampleToken` cached under `["s1"]` and
`now = 0`, the call returns the cached token with no issue invocation. -/
theorem get_token_fast_path_cached_witness :
    arrive freshState 30 0 ["s1"] = (freshState, ArriveOutcome.hit sampleToken) ∧
    (arrive freshState 30 0 ["s1"]).2 ≠ ArriveOutcome.leader :=
  get_token_fast_path_cached freshState 30 0 ["s1"] sampleToken (by decide) (by decide)

/-- C8: a failed refresh leaves the cache exactly as it was (the previous,
possibly expired, entry is not evicted) while clearing the in-flight
marker, and the failure reaches the round's callers as that round's
result; a successful refresh replaces the entry for the key atomically and
touches no other key. -/
theorem refresh_failure_keeps_entry {ε : Type} (s : SFState) (scopes : List String)
    (e : ε) (t : Token) :
    (complete s scopes (Except.error e)).cache = s.cache ∧
    (complete s scopes (Except.error e)).inflight (normalizeKey scopes) = false ∧
    roundResult ArriveOutcome.leader (Except.error e : Except ε Token) = Except.error e ∧
    roundResult ArriveOutcome.waiter (Except.error e : Except ε Token) = Except.error e ∧
    (complete s scopes (Except.ok t : Except ε Token)).cache (normalizeKey scopes) =
      some t ∧
    ∀ k, k ≠ normalizeKey scopes →
      (complete s scopes (Except.ok t : Except ε Token)).cache k = s.cache k := by
  refine ⟨rfl, by simp [complete], rfl, rfl, by simp [complete, Cache.update], ?_⟩
  intro k hk
  simp [complete, Cache.update, hk]

/-- Witness for C8: on the concrete cached state, a failed refresh leaves
the cache untouched and a successful one installs the new token. -/
theorem refresh_failure_keeps_entry_witness :
    (complete freshState ["s1"] (Except.error 5)).cache = freshState.cache ∧
    (complete freshState ["s1"] (Except.ok sampleToken : Except Nat Token)).cache
      (normalizeKey ["s1"]) = some sampleToken :=
  ⟨(refresh_failure_keeps_entry freshState ["s1"] 5 sampleToken).1,
    (refresh_failure_keeps_entry freshState ["s1"] 5 sampleToken).2.2.2.2.1⟩

/-- C9: for a fixed service-account key, scope list and `now`, the built
claim set is deterministic, with `iss` the key's client email, `aud` its
token endpoint URI, `scope` the scopes joined by single spaces in the
caller-specified order, `iat = now` and `exp = iat + 3600`. -/
theorem jwt_claims_deterministic (key : ServiceAccountKey) (scopes : List String)
    (now : Nat) :
    (buildClaims key scopes now).iss = key.client_email ∧
    (buildClaims key scopes now).aud = key.token_uri ∧
    (buildClaims key scopes now).scope = String.intercalate " " scopes ∧
    (buildClaims key scopes now).iat = now ∧
    (buildClaims key scopes now).exp = (buildClaims key scopes now).iat + 3600 :=
  ⟨rfl, rfl, rfl, rfl, rfl⟩

end GcpAuth
